import Mathlib

/-!
Verification of the quantaflux concurrent data-collection / risk-evaluation
pipeline: a shallow embedding of `internal/risk/risk.go` and
`internal/data/collector/collector.go`, with Go `float64` values modelled as
exact rationals and Go maps as association lists.
-/

/-- Mirror of `risk.RiskParameters` (five float64 limits). -/
structure RiskParameters where
  MaxPositionSize : ℚ
  MaxLossPerTrade : ℚ
  MaxDailyLoss : ℚ
  MaxLeverage : ℚ
  MinLiquidity : ℚ
deriving Repr, DecidableEq

/-- Mirror of the anonymous `dailyStats` struct inside `BasicRiskManager`. -/
structure DailyStats where
  totalLoss : ℚ
  tradingVolume : ℚ
  tradeCount : ℤ
deriving Repr, DecidableEq

/-- Mirror of `trading.Order`. -/
structure Order where
  Symbol : String
  Side : String
  Amount : ℚ
  Price : ℚ
  OrderType : String
  Status : String
  OrderID : String
  RawOrderID : ℤ
deriving Repr, DecidableEq

/-- Mirror of `risk.RiskAssessment`. -/
structure RiskAssessment where
  IsAcceptable : Bool
  RiskLevel : ℚ
  RiskFactors : List String
  Recommendations : List String
deriving Repr, DecidableEq

/-- The factor string appended by the position-size check. -/
def positionSizeFactor : String := "Position size exceeds maximum allowed"

/-- The factor string appended by the per-trade-loss check. -/
def perTradeLossFactor : String := "Potential loss exceeds maximum allowed per trade"

/-- The factor string appended by the daily-loss check. -/
def dailyLossFactor : String := "Trade could exceed maximum daily loss limit"

/-- The factor string appended by the market-order check. -/
def marketOrderFactor : String := "Market order may result in slippage"

/-- The factor string appended by the daily-volume check. -/
def dailyVolumeFactor : String := "Daily trading volume would exceed safe limits"

/-- The factor string appended by the trade-frequency check. -/
def tradeFrequencyFactor : String := "High trading frequency detected"

/-- The recommendation string appended by the market-order check. -/
def marketOrderRec : String := "Consider using limit order for better price control"

/-- `orderValue := order.Amount * order.Price` from `CheckTradeRisk`. -/
def orderValue (o : Order) : ℚ := o.Amount * o.Price

/--
Embedding of the body of `BasicRiskManager.CheckTradeRisk`
(`internal/risk/risk.go`, lines 35-104): six sequential checks mutating a
fresh assessment.  The parameter snapshot and daily statistics are explicit
arguments (the Go method copies `rm.params` under a read lock and reads
`rm.dailyStats`).
-/
def checkTradeRisk (params : RiskParameters) (dailyStats : DailyStats)
    (order : Order) : RiskAssessment :=
  let a0 : RiskAssessment :=
    { IsAcceptable := true, RiskLevel := 0, RiskFactors := [], Recommendations := [] }
  let ov := orderValue order
  let a1 :=
    if ov > params.MaxPositionSize then
      { a0 with
        IsAcceptable := false
        RiskLevel := a0.RiskLevel + 3/10
        RiskFactors := a0.RiskFactors ++ [positionSizeFactor]
        Recommendations := a0.Recommendations ++
          ["Reduce position size below " ++ toString params.MaxPositionSize] }
    else
      if order.Side = "buy" ∧ ov * (1/10) > params.MaxLossPerTrade then
        { a0 with
          IsAcceptable := false
          RiskLevel := a0.RiskLevel + 1/4
          RiskFactors := a0.RiskFactors ++ [perTradeLossFactor]
          Recommendations := a0.Recommendations ++
            ["Reduce position size to limit potential loss below " ++
              toString params.MaxLossPerTrade] }
      else a0
  let a2 :=
    if dailyStats.totalLoss + ov * (1/10) > params.MaxDailyLoss then
      { a1 with
        IsAcceptable := false
        RiskLevel := a1.RiskLevel + 1/4
        RiskFactors := a1.RiskFactors ++ [dailyLossFactor]
        Recommendations := a1.Recommendations ++
          ["Wait for daily loss limit to reset or reduce position size"] }
    else a1
  let a3 :=
    if order.OrderType = "market" then
      { a2 with
        RiskLevel := a2.RiskLevel + 1/10
        RiskFactors := a2.RiskFactors ++ [marketOrderFactor]
        Recommendations := a2.Recommendations ++ [marketOrderRec] }
    else a2
  let a4 :=
    if dailyStats.tradingVolume + ov > params.MaxPositionSize * 5 then
      { a3 with
        IsAcceptable := false
        RiskLevel := a3.RiskLevel + 1/5
        RiskFactors := a3.RiskFactors ++ [dailyVolumeFactor]
        Recommendations := a3.Recommendations ++
          ["Reduce trading volume or wait for daily reset"] }
    else a3
  let a5 :=
    if dailyStats.tradeCount > 100 then
      { a4 with
        RiskLevel := a4.RiskLevel + 3/20
        RiskFactors := a4.RiskFactors ++ [tradeFrequencyFactor]
        Recommendations := a4.Recommendations ++
          ["Consider reducing trading frequency"] }
    else a4
  a5

/-- The Go method returns `(assessment, nil)` unconditionally; the `error`
result slot is embedded as `Except String`. -/
def CheckTradeRisk (params : RiskParameters) (dailyStats : DailyStats)
    (order : Order) : Except String RiskAssessment :=
  Except.ok (checkTradeRisk params dailyStats order)

/-- Trigger condition of check 1 (position size). -/
abbrev trigPositionSize (p : RiskParameters) (o : Order) : Prop :=
  orderValue o > p.MaxPositionSize

/-- Trigger condition of check 2 (per-trade loss); it is evaluated only in the
`else` branch of check 1 and only for buy orders. -/
abbrev trigPerTradeLoss (p : RiskParameters) (o : Order) : Prop :=
  ¬ trigPositionSize p o ∧ o.Side = "buy" ∧ orderValue o * (1/10) > p.MaxLossPerTrade

/-- Trigger condition of check 3 (daily loss). -/
abbrev trigDailyLoss (p : RiskParameters) (s : DailyStats) (o : Order) : Prop :=
  s.totalLoss + orderValue o * (1/10) > p.MaxDailyLoss

/-- Trigger condition of check 4 (market order). -/
abbrev trigMarketOrder (o : Order) : Prop := o.OrderType = "market"

/-- Trigger condition of check 5 (daily volume). -/
abbrev trigDailyVolume (p : RiskParameters) (s : DailyStats) (o : Order) : Prop :=
  s.tradingVolume + orderValue o > p.MaxPositionSize * 5

/-- Trigger condition of check 6 (trade frequency). -/
abbrev trigTradeFrequency (s : DailyStats) : Prop := s.tradeCount > 100

/-- Number of the six checks that fire for a given evaluation. -/
def firedChecksCount (p : RiskParameters) (s : DailyStats) (o : Order) : ℕ :=
  (if trigPositionSize p o then 1 else 0) +
  (if trigPerTradeLoss p o then 1 else 0) +
  (if trigDailyLoss p s o then 1 else 0) +
  (if trigMarketOrder o then 1 else 0) +
  (if trigDailyVolume p s o then 1 else 0) +
  (if trigTradeFrequency s then 1 else 0)

/-- Embedding of `getSeverityLevel` (`internal/risk/risk.go`, lines 182-191). -/
def getSeverityLevel (pnl : ℚ) : String :=
  if pnl < -10000 then "HIGH"
  else if pnl < -5000 then "MEDIUM"
  else "LOW"

/-- The mutable state owned by a `BasicRiskManager`: the replaceable parameter
set and the rolling daily statistics. -/
structure EngineState where
  params : RiskParameters
  dailyStats : DailyStats
deriving Repr, DecidableEq

/-- The error message of `SetRiskParameters` for non-positive fields. -/
def invalidRiskParamsMsg : String := "invalid risk parameters: all values must be positive"

/--
Embedding of `BasicRiskManager.SetRiskParameters` (`internal/risk/risk.go`,
lines 107-118) as a state transformer: a validation failure returns the state
unchanged together with the error; success replaces the whole parameter set.
-/
def SetRiskParameters (s : EngineState) (p : RiskParameters) :
    EngineState × Option String :=
  if p.MaxPositionSize ≤ 0 ∨ p.MaxLossPerTrade ≤ 0 ∨ p.MaxDailyLoss ≤ 0 ∨
      p.MaxLeverage ≤ 0 ∨ p.MinLiquidity ≤ 0 then
    (s, some invalidRiskParamsMsg)
  else
    ({ s with params := p }, none)

/-- `CheckTradeRisk` as a state transformer: it reads the parameter snapshot
and daily statistics and never mutates the engine state. -/
def CheckTradeRiskOp (s : EngineState) (o : Order) :
    EngineState × Except String RiskAssessment :=
  (s, CheckTradeRisk s.params s.dailyStats o)

/-- The `dayReset.C` branch of the monitor loop (`internal/risk/risk.go`,
lines 137-143): one step that zeroes all three daily counters. -/
def dailyStatsResetOp (s : EngineState) : EngineState :=
  { s with dailyStats := { totalLoss := 0, tradingVolume := 0, tradeCount := 0 } }

/-- Firing times (in hours) of a `time.NewTicker` created at time `start` with
period `d`: it fires at `start + d`, `start + 2d`, and so on. -/
def tickTimes (start d : ℚ) (k : ℕ) : ℚ := start + d * (k + 1)

/-- Firing times of the daily-reset ticker: `MonitorPositions` creates
`dayReset := time.NewTicker(24 * time.Hour)` when it is invoked, so the
resets are spaced from the invocation time `monitorStart`. -/
def dailyResetTimes (monitorStart : ℚ) (k : ℕ) : ℚ := tickTimes monitorStart 24 k

/-- Mirror of `models.TokenInfo` (the `time.Time` launch date is a Unix
timestamp). -/
structure TokenInfo where
  Symbol : String
  Name : String
  ContractAddress : String
  Network : String
  LaunchType : String
  LaunchDate : ℤ
  InitialPrice : ℚ
  TotalSupply : ℚ
  CirculatingSupply : ℚ
  TeamAllocation : ℚ
  VestingSchedule : String
deriving Repr, DecidableEq

/-- A Go `(ptr, error)` pair returned by one `DataSource` call: the possibly
nil pointer result and the possibly nil error. -/
abbrev SourceReply (α : Type) := Option α × Option String

/-- The success test of the fallback loop: `err == nil && result != nil`. -/
def sourceSucceeds {α : Type} (r : SourceReply α) : Prop :=
  r.2 = none ∧ r.1.isSome = true

instance {α : Type} (r : SourceReply α) : Decidable (sourceSucceeds r) := by
  unfold sourceSucceeds
  infer_instance

/-- The error of `CollectTokenInfo` when every source fails. -/
def tokenInfoAllFailedMsg : String := "failed to collect token info from all sources"

/--
Embedding of `MultiSourceCollector.CollectTokenInfo`
(`internal/data/collector/collector.go`, lines 38-52).  A source is
represented by its reply for the requested symbol; `replies` lists them in
registration order.  The loop returns the first reply with `err == nil` and
a non-nil result and otherwise only logs; after the loop it fails.
-/
def collectTokenInfo (replies : List (SourceReply TokenInfo)) :
    Except String TokenInfo :=
  match replies with
  | [] => Except.error tokenInfoAllFailedMsg
  | (some info, none) :: _ => Except.ok info
  | _ :: rest => collectTokenInfo rest

/-- A Go `map[string]float64` as an association list with distinct keys kept
in insertion order. -/
abbrev SocialMap := List (String × ℚ)

/-- Go map read `m[k]`. -/
def lookupKV (m : SocialMap) (k : String) : Option ℚ :=
  match m with
  | [] => none
  | (k2, v) :: rest => if k2 = k then some v else lookupKV rest k

/-- Go map write `m[k] = v`: overwrite an existing key in place, otherwise
append. -/
def insertKV (m : SocialMap) (k : String) (v : ℚ) : SocialMap :=
  match m with
  | [] => [(k, v)]
  | (k2, v2) :: rest => if k2 = k then (k2, v) :: rest else (k2, v2) :: insertKV rest k v

/-- `for k, v := range metrics { results[k] = v }` — merge one source's map
into the accumulator. -/
def mergeMap (acc m : SocialMap) : SocialMap :=
  m.foldl (fun a kv => insertKV a kv.1 kv.2) acc

/-- The error of `CollectSocialMetrics` when the merged result is empty. -/
def socialAllFailedMsg : String := "failed to collect social metrics from all sources"

/--
Embedding of `MultiSourceCollector.CollectSocialMetrics`
(`internal/data/collector/collector.go`, lines 72-105).  Each goroutine's
outcome is a `(map, error)` pair; `completed` lists them in the order the
goroutines take the merge mutex (any permutation of the registration order).
A goroutine whose fetch failed contributes nothing; the others merge their
maps into the shared accumulator (`mergeStep` is one goroutine's critical
section).  After `wg.Wait()`, an empty accumulator is an error.
-/
def mergeStep (acc : SocialMap) (r : SocialMap × Option String) : SocialMap :=
  match r.2 with
  | none => mergeMap acc r.1
  | some _ => acc

def collectSocialMetrics (completed : List (SocialMap × Option String)) :
    Except String SocialMap :=
  let results := completed.foldl mergeStep []
  if results = [] then Except.error socialAllFailedMsg else Except.ok results

/-- The union lookup the spec describes for disjoint sources: the first map's
binding when present, otherwise the second map's. -/
def unionLookup (m1 m2 : SocialMap) (k : String) : Option ℚ :=
  match lookupKV m1 k with
  | some v => some v
  | none => lookupKV m2 k

/-- Keys of a social-metrics map. -/
def keysOf (m : SocialMap) : List String := m.map Prod.fst

/-- The parameter fixture of the Go tests. -/
def exampleParams : RiskParameters :=
  { MaxPositionSize := 10000, MaxLossPerTrade := 1000, MaxDailyLoss := 3000,
    MaxLeverage := 3, MinLiquidity := 5000 }

/-- All-zero daily statistics (a freshly constructed engine). -/
def zeroStats : DailyStats := { totalLoss := 0, tradingVolume := 0, tradeCount := 0 }

/-- The zero-value parameter set `RiskParameters{}`. -/
def zeroParams : RiskParameters :=
  { MaxPositionSize := 0, MaxLossPerTrade := 0, MaxDailyLoss := 0,
    MaxLeverage := 0, MinLiquidity := 0 }

/-- The "safe order" fixture of the Go tests. -/
def safeOrder : Order :=
  { Symbol := "BTC-USDT", Side := "buy", Amount := 1, Price := 1000,
    OrderType := "limit", Status := "new", OrderID := "", RawOrderID := 0 }

/-- The "market order risk" fixture of the Go tests. -/
def marketOrder : Order := { safeOrder with OrderType := "market" }

/-- The "multiple risk factors" fixture of the Go tests: excessive size and
market type. -/
def bigMarketOrder : Order := { safeOrder with Amount := 15, OrderType := "market" }

/-- The "excessive position size" fixture of the Go tests. -/
def bigOrder : Order := { safeOrder with Amount := 20 }

/-- An invalid parameter set (negative position size), as in the Go tests. -/
def badParams : RiskParameters := { exampleParams with MaxPositionSize := -1000 }

/-- An engine state holding the zero-value parameter set. -/
def initialState : EngineState := { params := zeroParams, dailyStats := zeroStats }

/-- A concrete token-info value for collector witnesses. -/
def exampleToken : TokenInfo :=
  { Symbol := "BTC", Name := "Bitcoin", ContractAddress := "", Network := "eth",
    LaunchType := "IDO", LaunchDate := 0, InitialPrice := 1, TotalSupply := 21,
    CirculatingSupply := 19, TeamAllocation := 0, VestingSchedule := "" }

theorem checkTradeRisk_factors (p : RiskParameters) (s : DailyStats) (o : Order) :
    (checkTradeRisk p s o).RiskFactors =
      (if trigPositionSize p o then [positionSizeFactor]
       else if o.Side = "buy" ∧ orderValue o * (1/10) > p.MaxLossPerTrade then
         [perTradeLossFactor] else []) ++
      (if trigDailyLoss p s o then [dailyLossFactor] else []) ++
      (if trigMarketOrder o then [marketOrderFactor] else []) ++
      (if trigDailyVolume p s o then [dailyVolumeFactor] else []) ++
      (if trigTradeFrequency s then [tradeFrequencyFactor] else []) := by
  simp only [checkTradeRisk]
  split_ifs <;> simp

theorem checkTradeRisk_riskLevel (p : RiskParameters) (s : DailyStats) (o : Order) :
    (checkTradeRisk p s o).RiskLevel =
      (if trigPositionSize p o then 3/10
       else if o.Side = "buy" ∧ orderValue o * (1/10) > p.MaxLossPerTrade then 1/4 else 0) +
      (if trigDailyLoss p s o then 1/4 else 0) +
      (if trigMarketOrder o then 1/10 else 0) +
      (if trigDailyVolume p s o then 1/5 else 0) +
      (if trigTradeFrequency s then 3/20 else 0) := by
  simp only [checkTradeRisk]
  split_ifs <;> norm_num

theorem checkTradeRisk_acceptable (p : RiskParameters) (s : DailyStats) (o : Order) :
    (checkTradeRisk p s o).IsAcceptable = true ↔
      ¬ trigPositionSize p o ∧ ¬ trigPerTradeLoss p o ∧ ¬ trigDailyLoss p s o ∧
        ¬ trigDailyVolume p s o := by
  simp only [checkTradeRisk, trigPerTradeLoss]
  split_ifs <;> simp_all

theorem checkTradeRisk_recs (p : RiskParameters) (s : DailyStats) (o : Order) :
    (checkTradeRisk p s o).Recommendations =
      (if trigPositionSize p o then
         ["Reduce position size below " ++ toString p.MaxPositionSize]
       else if o.Side = "buy" ∧ orderValue o * (1/10) > p.MaxLossPerTrade then
         ["Reduce position size to limit potential loss below " ++
           toString p.MaxLossPerTrade] else []) ++
      (if trigDailyLoss p s o then
         ["Wait for daily loss limit to reset or reduce position size"] else []) ++
      (if trigMarketOrder o then [marketOrderRec] else []) ++
      (if trigDailyVolume p s o then
         ["Reduce trading volume or wait for daily reset"] else []) ++
      (if trigTradeFrequency s then ["Consider reducing trading frequency"] else []) := by
  simp only [checkTradeRisk]
  split_ifs <;> simp

theorem mem_ite_list {a : String} {l1 l2 : List String} {c : Prop} [Decidable c] :
    a ∈ (if c then l1 else l2) ↔ (c ∧ a ∈ l1) ∨ (¬ c ∧ a ∈ l2) := by
  split_ifs <;> simp_all

/--
C1: the first two checks of `CheckTradeRisk` are mutually exclusive.  When
`amount * price > MaxPositionSize` the assessment is unacceptable, carries
the position-size factor and never the per-trade-loss factor; otherwise the
per-trade-loss factor appears exactly when the order is a buy with
`orderValue * 0.1 > MaxLossPerTrade` (which also makes it unacceptable); the
position-size branch contributes weight 0.3 and the per-trade-loss branch
0.25 to the additive risk level, and the two factors never appear together.
-/
theorem C1_first_two_checks_exclusive (p : RiskParameters) (s : DailyStats) (o : Order) :
    (trigPositionSize p o →
      (checkTradeRisk p s o).IsAcceptable = false ∧
      positionSizeFactor ∈ (checkTradeRisk p s o).RiskFactors ∧
      perTradeLossFactor ∉ (checkTradeRisk p s o).RiskFactors) ∧
    (¬ trigPositionSize p o →
      positionSizeFactor ∉ (checkTradeRisk p s o).RiskFactors ∧
      (perTradeLossFactor ∈ (checkTradeRisk p s o).RiskFactors ↔
        o.Side = "buy" ∧ orderValue o * (1/10) > p.MaxLossPerTrade) ∧
      (o.Side = "buy" ∧ orderValue o * (1/10) > p.MaxLossPerTrade →
        (checkTradeRisk p s o).IsAcceptable = false)) ∧
    (checkTradeRisk p s o).RiskLevel =
      (if trigPositionSize p o then 3/10
       else if o.Side = "buy" ∧ orderValue o * (1/10) > p.MaxLossPerTrade then 1/4 else 0) +
      (if trigDailyLoss p s o then 1/4 else 0) +
      (if trigMarketOrder o then 1/10 else 0) +
      (if trigDailyVolume p s o then 1/5 else 0) +
      (if trigTradeFrequency s then 3/20 else 0) ∧
    ¬ (positionSizeFactor ∈ (checkTradeRisk p s o).RiskFactors ∧
       perTradeLossFactor ∈ (checkTradeRisk p s o).RiskFactors) := by
  have hf := checkTradeRisk_factors p s o
  have hl := checkTradeRisk_riskLevel p s o
  have ha := checkTradeRisk_acceptable p s o
  have part1 : trigPositionSize p o →
      (checkTradeRisk p s o).IsAcceptable = false ∧
      positionSizeFactor ∈ (checkTradeRisk p s o).RiskFactors ∧
      perTradeLossFactor ∉ (checkTradeRisk p s o).RiskFactors := by
    intro h1
    refine ⟨?_, ?_, ?_⟩
    · cases hb : (checkTradeRisk p s o).IsAcceptable with
      | false => rfl
      | true => exact absurd h1 (ha.mp hb).1
    · rw [hf]; simp [mem_ite_list, h1]
    · rw [hf]
      simp [mem_ite_list, h1, positionSizeFactor, perTradeLossFactor, dailyLossFactor,
        marketOrderFactor, dailyVolumeFactor, tradeFrequencyFactor]
  have part2 : ¬ trigPositionSize p o →
      positionSizeFactor ∉ (checkTradeRisk p s o).RiskFactors ∧
      (perTradeLossFactor ∈ (checkTradeRisk p s o).RiskFactors ↔
        o.Side = "buy" ∧ orderValue o * (1/10) > p.MaxLossPerTrade) ∧
      (o.Side = "buy" ∧ orderValue o * (1/10) > p.MaxLossPerTrade →
        (checkTradeRisk p s o).IsAcceptable = false) := by
    intro h1
    refine ⟨?_, ?_, ?_⟩
    · rw [hf]
      simp [mem_ite_list, h1, positionSizeFactor, perTradeLossFactor, dailyLossFactor,
        marketOrderFactor, dailyVolumeFactor, tradeFrequencyFactor]
    · rw [hf]
      simp [mem_ite_list, h1, positionSizeFactor, perTradeLossFactor, dailyLossFactor,
        marketOrderFactor, dailyVolumeFactor, tradeFrequencyFactor]
    · intro h2
      cases hb : (checkTradeRisk p s o).IsAcceptable with
      | false => rfl
      | true => exact absurd ⟨h1, h2.1, h2.2⟩ (ha.mp hb).2.1
  refine ⟨part1, part2, hl, ?_⟩
  rintro ⟨hpos, hloss⟩
  by_cases h1 : trigPositionSize p o
  · exact (part1 h1).2.2 hloss
  · exact (part2 h1).1 hpos

/-- Witness for C1 at the Go test fixtures: the oversized order is rejected
with the position-size factor only, and the safe order carries neither. -/
theorem C1_witness :
    (checkTradeRisk exampleParams zeroStats bigOrder).IsAcceptable = false ∧
    positionSizeFactor ∈ (checkTradeRisk exampleParams zeroStats bigOrder).RiskFactors ∧
    perTradeLossFactor ∉ (checkTradeRisk exampleParams zeroStats bigOrder).RiskFactors ∧
    positionSizeFactor ∉ (checkTradeRisk exampleParams zeroStats safeOrder).RiskFactors := by
  have h1 : trigPositionSize exampleParams bigOrder := by
    norm_num [exampleParams, bigOrder, safeOrder, orderValue]
  have h2 : ¬ trigPositionSize exampleParams safeOrder := by
    norm_num [exampleParams, safeOrder, orderValue]
  obtain ⟨p1, -, -, -⟩ := C1_first_two_checks_exclusive exampleParams zeroStats bigOrder
  obtain ⟨-, p2, -, -⟩ := C1_first_two_checks_exclusive exampleParams zeroStats safeOrder
  exact ⟨(p1 h1).1, (p1 h1).2.1, (p1 h1).2.2, (p2 h2).1⟩

/--
C2: `SetRiskParameters` returns the invalid-parameter error and leaves the
state unchanged whenever any of the five fields is not strictly positive,
and replaces the whole parameter set (daily statistics untouched) whenever
all five are strictly positive.
-/
theorem C2_set_risk_parameters (s : EngineState) (p : RiskParameters) :
    ((p.MaxPositionSize ≤ 0 ∨ p.MaxLossPerTrade ≤ 0 ∨ p.MaxDailyLoss ≤ 0 ∨
        p.MaxLeverage ≤ 0 ∨ p.MinLiquidity ≤ 0) →
      SetRiskParameters s p = (s, some invalidRiskParamsMsg)) ∧
    ((0 < p.MaxPositionSize ∧ 0 < p.MaxLossPerTrade ∧ 0 < p.MaxDailyLoss ∧
        0 < p.MaxLeverage ∧ 0 < p.MinLiquidity) →
      SetRiskParameters s p = ({ s with params := p }, none)) := by
  constructor
  · intro h
    simp only [SetRiskParameters]
    rw [if_pos h]
  · intro h
    have hneg : ¬ (p.MaxPositionSize ≤ 0 ∨ p.MaxLossPerTrade ≤ 0 ∨ p.MaxDailyLoss ≤ 0 ∨
        p.MaxLeverage ≤ 0 ∨ p.MinLiquidity ≤ 0) := by
      push_neg
      exact ⟨h.1, h.2.1, h.2.2.1, h.2.2.2.1, h.2.2.2.2⟩
    simp only [SetRiskParameters]
    rw [if_neg hneg]

/-- Witness for C2: the negative-position-size fixture is rejected without a
write, and the valid fixture replaces the zero-value parameter set. -/
theorem C2_witness :
    SetRiskParameters initialState badParams = (initialState, some invalidRiskParamsMsg) ∧
    SetRiskParameters initialState exampleParams =
      ({ initialState with params := exampleParams }, none) := by
  constructor
  · exact (C2_set_risk_parameters initialState badParams).1
      (Or.inl (by norm_num [badParams, exampleParams]))
  · exact (C2_set_risk_parameters initialState exampleParams).2
      (by norm_num [exampleParams])

/--
C3: `CheckTradeRisk` never returns an error, and an order that triggers none
of the six checks yields the conservative default assessment (acceptable,
zero risk level, no factors, no recommendations).
-/
theorem C3_no_error_conservative_default (p : RiskParameters) (s : DailyStats) (o : Order) :
    (∃ a, CheckTradeRisk p s o = Except.ok a) ∧
    ((¬ trigPositionSize p o ∧ ¬ trigPerTradeLoss p o ∧ ¬ trigDailyLoss p s o ∧
      ¬ trigMarketOrder o ∧ ¬ trigDailyVolume p s o ∧ ¬ trigTradeFrequency s) →
      CheckTradeRisk p s o = Except.ok
        { IsAcceptable := true, RiskLevel := 0, RiskFactors := [], Recommendations := [] }) := by
  refine ⟨⟨checkTradeRisk p s o, rfl⟩, ?_⟩
  rintro ⟨h1, h2, h3, h4, h5, h6⟩
  have h2b : ¬ (o.Side = "buy" ∧ orderValue o * (1/10) > p.MaxLossPerTrade) :=
    fun hc => h2 ⟨h1, hc⟩
  simp only [CheckTradeRisk, checkTradeRisk]
  rw [if_neg h1, if_neg h2b, if_neg h3, if_neg h4, if_neg h5, if_neg h6]

/-- Witness for C3: the safe-order fixture evaluates to the conservative
default assessment. -/
theorem C3_witness :
    CheckTradeRisk exampleParams zeroStats safeOrder = Except.ok
      { IsAcceptable := true, RiskLevel := 0, RiskFactors := [], Recommendations := [] } := by
  refine (C3_no_error_conservative_default exampleParams zeroStats safeOrder).2 ?_
  norm_num [exampleParams, safeOrder, zeroStats, orderValue]
  decide

/--
C6: the market-order check adds exactly 0.1 and one factor without rejecting
by itself: a market order triggering nothing else yields an acceptable
assessment with risk level 0.1 and exactly the market-order factor, and a
market order that additionally exceeds the position size (and triggers
nothing else) yields risk level 0.4, two factors, and rejection.
-/
theorem C6_market_order_check (p : RiskParameters) (s : DailyStats) (o : Order) :
    (trigMarketOrder o → ¬ trigPositionSize p o →
      ¬ (o.Side = "buy" ∧ orderValue o * (1/10) > p.MaxLossPerTrade) →
      ¬ trigDailyLoss p s o → ¬ trigDailyVolume p s o → ¬ trigTradeFrequency s →
      checkTradeRisk p s o =
        { IsAcceptable := true, RiskLevel := 1/10, RiskFactors := [marketOrderFactor],
          Recommendations := [marketOrderRec] }) ∧
    (trigMarketOrder o → trigPositionSize p o → ¬ trigDailyLoss p s o →
      ¬ trigDailyVolume p s o → ¬ trigTradeFrequency s →
      (checkTradeRisk p s o).IsAcceptable = false ∧
      (checkTradeRisk p s o).RiskLevel = 2/5 ∧
      (checkTradeRisk p s o).RiskFactors.length = 2) := by
  constructor
  · intro h4 h1 h2 h3 h5 h6
    simp only [checkTradeRisk]
    rw [if_neg h1, if_neg h2, if_neg h3, if_pos h4, if_neg h5, if_neg h6]
    norm_num
  · intro h4 h1 h3 h5 h6
    simp only [checkTradeRisk]
    rw [if_pos h1, if_neg h3, if_pos h4, if_neg h5, if_neg h6]
    refine ⟨rfl, by norm_num, rfl⟩

/-- Witness for C6 at the Go test fixtures: the plain market order and the
oversized market order. -/
theorem C6_witness :
    checkTradeRisk exampleParams zeroStats marketOrder =
      { IsAcceptable := true, RiskLevel := 1/10, RiskFactors := [marketOrderFactor],
        Recommendations := [marketOrderRec] } ∧
    (checkTradeRisk exampleParams zeroStats bigMarketOrder).IsAcceptable = false ∧
    (checkTradeRisk exampleParams zeroStats bigMarketOrder).RiskLevel = 2/5 ∧
    (checkTradeRisk exampleParams zeroStats bigMarketOrder).RiskFactors.length = 2 := by
  obtain ⟨w1, -⟩ := C6_market_order_check exampleParams zeroStats marketOrder
  obtain ⟨-, w2⟩ := C6_market_order_check exampleParams zeroStats bigMarketOrder
  refine ⟨w1 ?_ ?_ ?_ ?_ ?_ ?_, w2 ?_ ?_ ?_ ?_ ?_⟩ <;>
    norm_num [marketOrder, bigMarketOrder, safeOrder, exampleParams, zeroStats, orderValue]

/--
C7: `getSeverityLevel` returns HIGH exactly below -10000, MEDIUM exactly on
[-10000, -5000), LOW otherwise, with the boundary values -10000 mapping to
MEDIUM and -5000 to LOW.
-/
theorem C7_severity_boundaries :
    (∀ pnl : ℚ,
      (getSeverityLevel pnl = "HIGH" ↔ pnl < -10000) ∧
      (getSeverityLevel pnl = "MEDIUM" ↔ -10000 ≤ pnl ∧ pnl < -5000) ∧
      (getSeverityLevel pnl = "LOW" ↔ -5000 ≤ pnl)) ∧
    getSeverityLevel (-15000) = "HIGH" ∧ getSeverityLevel (-7500) = "MEDIUM" ∧
    getSeverityLevel (-1000) = "LOW" ∧ getSeverityLevel (-10000) = "MEDIUM" ∧
    getSeverityLevel (-5000) = "LOW" := by
  refine ⟨?_, by norm_num [getSeverityLevel], by norm_num [getSeverityLevel],
    by norm_num [getSeverityLevel], by norm_num [getSeverityLevel],
    by norm_num [getSeverityLevel]⟩
  intro pnl
  unfold getSeverityLevel
  split_ifs with h1 h2
  · refine ⟨iff_of_true rfl h1, iff_of_false (by simp) ?_, iff_of_false (by simp) ?_⟩
    · rintro ⟨ha, -⟩
      linarith
    · intro ha
      linarith
  · refine ⟨iff_of_false (by simp) ?_, iff_of_true rfl ⟨by linarith, h2⟩,
      iff_of_false (by simp) ?_⟩
    · intro ha
      linarith
    · intro ha
      linarith
  · refine ⟨iff_of_false (by simp) ?_, iff_of_false (by simp) ?_,
      iff_of_true rfl (by linarith)⟩
    · exact h1
    · rintro ⟨-, hb⟩
      exact h2 hb

/-- Witness for C7: a value strictly below the HIGH cut point. -/
theorem C7_witness : getSeverityLevel (-20000) = "HIGH" :=
  (C7_severity_boundaries.1 (-20000)).1.mpr (by norm_num)

/--
C10 (implicit): every assessment has equally many risk factors and
recommendations, and that common length is the number of checks that fired.
-/
theorem C10_factors_recs_same_length (p : RiskParameters) (s : DailyStats) (o : Order) :
    (checkTradeRisk p s o).RiskFactors.length = (checkTradeRisk p s o).Recommendations.length ∧
    (checkTradeRisk p s o).RiskFactors.length = firedChecksCount p s o := by
  rw [checkTradeRisk_factors, checkTradeRisk_recs]
  unfold firedChecksCount
  constructor
  · split_ifs <;> simp
  · by_cases hc1 : trigPositionSize p o <;>
      by_cases hc2 : (o.Side = "buy" ∧ orderValue o * (1/10) > p.MaxLossPerTrade) <;>
      simp [trigPerTradeLoss, hc1, hc2] <;> split_ifs <;> simp_all

/--
C8 counterexample: the daily-reset ticker is created inside
`MonitorPositions`, so with the engine constructed at hour 0 and
`MonitorPositions` invoked at hour 1 the first reset fires at hour 25, not
at the construction-time 24-hour boundary the claim asserts.
-/
theorem C8_counterexample :
    dailyResetTimes 1 0 = 25 ∧ dailyResetTimes 1 0 ≠ 0 + 24 := by
  constructor <;> norm_num [dailyResetTimes, tickTimes]

/--
C8 (amended): the daily statistics are reset to zero exactly once per
24-hour boundary measured from the `MonitorPositions` invocation (the daily
ticker's creation); the reset zeroes all three counters in one step leaving
the parameters intact, and neither `CheckTradeRisk` nor `SetRiskParameters`
mutates the daily statistics.
-/
theorem C8_reset_semantics (s : EngineState) (o : Order) (p : RiskParameters)
    (m : ℚ) (k : ℕ) :
    (dailyStatsResetOp s).dailyStats.totalLoss = 0 ∧
    (dailyStatsResetOp s).dailyStats.tradingVolume = 0 ∧
    (dailyStatsResetOp s).dailyStats.tradeCount = 0 ∧
    (dailyStatsResetOp s).params = s.params ∧
    (CheckTradeRiskOp s o).1 = s ∧
    ((SetRiskParameters s p).1).dailyStats = s.dailyStats ∧
    dailyResetTimes m k = m + 24 * (k + 1) ∧
    dailyResetTimes m (k + 1) - dailyResetTimes m k = 24 := by
  refine ⟨rfl, rfl, rfl, rfl, rfl, ?_, rfl, ?_⟩
  · simp only [SetRiskParameters]
    split_ifs <;> rfl
  · simp only [dailyResetTimes, tickTimes]
    push_cast
    ring

/-- A reply that fails the fallback test is skipped by the loop. -/
theorem collectTokenInfo_skip (r : SourceReply TokenInfo)
    (rest : List (SourceReply TokenInfo)) (h : ¬ sourceSucceeds r) :
    collectTokenInfo (r :: rest) = collectTokenInfo rest := by
  rcases r with ⟨o, e⟩
  cases o <;> cases e <;> simp_all [collectTokenInfo, sourceSucceeds]

/-- A successful head reply is returned immediately. -/
theorem collectTokenInfo_head (v : TokenInfo) (rest : List (SourceReply TokenInfo)) :
    collectTokenInfo ((some v, none) :: rest) = Except.ok v := rfl

/-- The fallback loop fails exactly when every reply fails. -/
theorem collectTokenInfo_error_iff (replies : List (SourceReply TokenInfo)) :
    collectTokenInfo replies = Except.error tokenInfoAllFailedMsg ↔
      ∀ r ∈ replies, ¬ sourceSucceeds r := by
  induction replies with
  | nil => simp [collectTokenInfo]
  | cons r rest ih =>
    by_cases h : sourceSucceeds r
    · obtain ⟨he, hsome⟩ := h
      rcases r with ⟨o, e⟩
      subst he
      rcases Option.isSome_iff_exists.mp hsome with ⟨v, rfl⟩
      simp [collectTokenInfo_head, sourceSucceeds]
    · rw [collectTokenInfo_skip r rest h, ih]
      constructor
      · intro hall t ht
        rcases List.mem_cons.mp ht with rfl | ht2
        · exact h
        · exact hall t ht2
      · intro hall t ht
        exact hall t (List.mem_cons_of_mem r ht)

/--
C4: `CollectTokenInfo` tries sources in registration order, returns the
first reply that succeeds (non-nil result, nil error) skipping earlier
failures, and returns the not-found error exactly when every source fails,
including the empty source list.
-/
theorem C4_collect_token_info :
    (∀ replies : List (SourceReply TokenInfo),
      collectTokenInfo replies = Except.error tokenInfoAllFailedMsg ↔
        ∀ r ∈ replies, ¬ sourceSucceeds r) ∧
    (∀ (pre : List (SourceReply TokenInfo)) (v : TokenInfo)
        (rest : List (SourceReply TokenInfo)),
      (∀ t ∈ pre, ¬ sourceSucceeds t) →
      collectTokenInfo (pre ++ (some v, none) :: rest) = Except.ok v) ∧
    collectTokenInfo [] = Except.error tokenInfoAllFailedMsg := by
  refine ⟨collectTokenInfo_error_iff, ?_, rfl⟩
  intro pre v rest hpre
  induction pre with
  | nil => exact collectTokenInfo_head v rest
  | cons t ts ih =>
    rw [List.cons_append, collectTokenInfo_skip t _ (hpre t (List.mem_cons_self t ts))]
    exact ih fun u hu => hpre u (List.mem_cons_of_mem t hu)

/-- Witness for C4: a failing source followed by a succeeding one returns
the second result; two failing sources give the not-found error. -/
theorem C4_witness :
    collectTokenInfo [(none, some "boom"), (some exampleToken, none)] =
      Except.ok exampleToken ∧
    collectTokenInfo [(none, some "boom"), (none, some "bust")] =
      Except.error tokenInfoAllFailedMsg := by
  constructor
  · exact C4_collect_token_info.2.1 [(none, some "boom")] exampleToken []
      (by intro t ht; simp at ht; subst ht; simp [sourceSucceeds])
  · exact (C4_collect_token_info.1 _).mpr
      (by intro r hr; simp at hr; rcases hr with rfl | rfl <;> simp [sourceSucceeds])

/-- Writing a key the map already holds overwrites it. -/
theorem lookup_insert_same (m : SocialMap) (k : String) (v : ℚ) :
    lookupKV (insertKV m k v) k = some v := by
  induction m with
  | nil => simp [insertKV, lookupKV]
  | cons kv rest ih =>
    rcases kv with ⟨k2, v2⟩
    by_cases h : k2 = k
    · subst h
      simp [insertKV, lookupKV]
    · simp [insertKV, lookupKV, h, ih]

/-- Writing one key leaves every other key unchanged. -/
theorem lookup_insert_other (m : SocialMap) (k k2 : String) (v : ℚ) (h : k2 ≠ k) :
    lookupKV (insertKV m k v) k2 = lookupKV m k2 := by
  induction m with
  | nil => simp [insertKV, lookupKV, Ne.symm h]
  | cons kv rest ih =>
    rcases kv with ⟨k3, v3⟩
    by_cases h3 : k3 = k
    · subst h3
      simp [insertKV, lookupKV, Ne.symm h]
    · by_cases h32 : k3 = k2
      · subst h32
        simp [insertKV, lookupKV, h3]
      · simp [insertKV, lookupKV, h3, h32, ih]

/-- A map write never empties the map. -/
theorem insertKV_ne_nil (m : SocialMap) (k : String) (v : ℚ) : insertKV m k v ≠ [] := by
  cases m with
  | nil => simp [insertKV]
  | cons kv rest =>
    rcases kv with ⟨k2, v2⟩
    simp only [insertKV]
    split_ifs <;> simp

/-- Merging leaves an empty accumulator exactly when both sides are empty. -/
theorem mergeMap_eq_nil_iff (m acc : SocialMap) :
    mergeMap acc m = [] ↔ acc = [] ∧ m = [] := by
  induction m generalizing acc with
  | nil => simp [mergeMap]
  | cons kv rest ih =>
    constructor
    · intro h
      rw [show mergeMap acc (kv :: rest) = mergeMap (insertKV acc kv.1 kv.2) rest from rfl] at h
      exact absurd ((ih _).mp h).1 (insertKV_ne_nil _ _ _)
    · rintro ⟨-, h⟩
      simp at h

/-- Merging a map that does not contain `k` does not change the binding of
`k`. -/
theorem lookup_merge_notmem (m acc : SocialMap) (k : String) (h : k ∉ keysOf m) :
    lookupKV (mergeMap acc m) k = lookupKV acc k := by
  induction m generalizing acc with
  | nil => rfl
  | cons kv rest ih =>
    rcases kv with ⟨k2, v2⟩
    simp only [keysOf, List.map_cons, List.mem_cons] at h
    push_neg at h
    rw [show mergeMap acc ((k2, v2) :: rest) = mergeMap (insertKV acc k2 v2) rest from rfl]
    rw [ih _ (by simpa [keysOf] using h.2)]
    exact lookup_insert_other acc k2 k v2 h.1

/-- Merging a duplicate-free map installs each of its bindings. -/
theorem lookup_merge_mem (m acc : SocialMap) (k : String) (v : ℚ)
    (hnd : (keysOf m).Nodup) (hmem : (k, v) ∈ m) :
    lookupKV (mergeMap acc m) k = some v := by
  induction m generalizing acc with
  | nil => cases hmem
  | cons kv rest ih =>
    rcases kv with ⟨k2, v2⟩
    simp only [keysOf, List.map_cons, List.nodup_cons] at hnd
    rcases List.mem_cons.mp hmem with heq | hmem2
    · rcases Prod.mk.injEq .. ▸ heq with ⟨rfl, rfl⟩
      rw [show mergeMap acc ((k, v) :: rest) = mergeMap (insertKV acc k v) rest from rfl]
      rw [lookup_merge_notmem rest _ k (by simpa [keysOf] using hnd.1)]
      exact lookup_insert_same acc k v
    · rw [show mergeMap acc ((k2, v2) :: rest) = mergeMap (insertKV acc k2 v2) rest from rfl]
      exact ih _ (by simpa [keysOf] using hnd.2) hmem2

/-- Lookup finds each binding of a duplicate-free map. -/
theorem lookupKV_of_mem (m : SocialMap) (k : String) (v : ℚ)
    (hnd : (keysOf m).Nodup) (hmem : (k, v) ∈ m) : lookupKV m k = some v := by
  induction m with
  | nil => cases hmem
  | cons kv rest ih =>
    rcases kv with ⟨k2, v2⟩
    simp only [keysOf, List.map_cons, List.nodup_cons] at hnd
    rcases List.mem_cons.mp hmem with heq | hmem2
    · rcases Prod.mk.injEq .. ▸ heq with ⟨rfl, rfl⟩
      simp [lookupKV]
    · have hne : k2 ≠ k := by
        intro hk
        subst hk
        exact hnd.1 (List.mem_map.mpr ⟨(k2, v), hmem2, rfl⟩)
      simp [lookupKV, hne, ih (by simpa [keysOf] using hnd.2) hmem2]

/-- Lookup misses keys the map does not hold. -/
theorem lookupKV_eq_none_of_notmem (m : SocialMap) (k : String) (h : k ∉ keysOf m) :
    lookupKV m k = none := by
  induction m with
  | nil => rfl
  | cons kv rest ih =>
    rcases kv with ⟨k2, v2⟩
    simp only [keysOf, List.map_cons, List.mem_cons] at h
    push_neg at h
    simp [lookupKV, Ne.symm h.1, ih (by simpa [keysOf] using h.2)]

/-- Every key of a map has a binding. -/
theorem mem_of_mem_keys (m : SocialMap) (k : String) (h : k ∈ keysOf m) :
    ∃ v, (k, v) ∈ m := by
  simp only [keysOf, List.mem_map] at h
  rcases h with ⟨⟨k2, v⟩, hmem, rfl⟩
  exact ⟨v, hmem⟩

/-- The merge accumulator stays empty exactly when it started empty and
every succeeding source reported an empty map. -/
theorem foldl_mergeStep_eq_nil_iff (completed : List (SocialMap × Option String))
    (acc : SocialMap) :
    completed.foldl mergeStep acc = [] ↔
      acc = [] ∧ ∀ r ∈ completed, r.2 = none → r.1 = [] := by
  induction completed generalizing acc with
  | nil => simp
  | cons r rest ih =>
    rcases r with ⟨m, e⟩
    cases e with
    | none =>
      rw [List.foldl_cons, show mergeStep acc (m, none) = mergeMap acc m from rfl,
        ih, mergeMap_eq_nil_iff]
      constructor
      · rintro ⟨⟨hacc, hm⟩, hall⟩
        refine ⟨hacc, ?_⟩
        intro t ht hnone
        rcases List.mem_cons.mp ht with heq | ht2
        · subst heq
          exact hm
        · exact hall t ht2 hnone
      · rintro ⟨hacc, hall⟩
        refine ⟨⟨hacc, hall (m, none) (List.mem_cons_self _ _) rfl⟩, ?_⟩
        intro t ht hnone
        exact hall t (List.mem_cons_of_mem _ ht) hnone
    | some err =>
      rw [List.foldl_cons, show mergeStep acc (m, some err) = acc from rfl, ih]
      constructor
      · rintro ⟨hacc, hall⟩
        refine ⟨hacc, ?_⟩
        intro t ht hnone
        rcases List.mem_cons.mp ht with heq | ht2
        · subst heq
          cases hnone
        · exact hall t ht2 hnone
      · rintro ⟨hacc, hall⟩
        exact ⟨hacc, fun t ht => hall t (List.mem_cons_of_mem _ ht)⟩

/--
C5: `CollectSocialMetrics` merges the maps of all succeeding sources and
fails exactly when the merged result is empty; for two sources with
disjoint (duplicate-free) key sets, both completion orders succeed and the
returned map is lookup-equal to the union of the two maps.
-/
theorem C5_social_metrics_merge :
    (∀ completed : List (SocialMap × Option String),
      collectSocialMetrics completed = Except.error socialAllFailedMsg ↔
        ∀ r ∈ completed, r.2 = none → r.1 = []) ∧
    (∀ m1 m2 : SocialMap, (keysOf m1).Nodup → (keysOf m2).Nodup →
      (∀ k, k ∈ keysOf m1 → k ∉ keysOf m2) → ¬ (m1 = [] ∧ m2 = []) →
      ∃ r12 r21 : SocialMap,
        collectSocialMetrics [(m1, none), (m2, none)] = Except.ok r12 ∧
        collectSocialMetrics [(m2, none), (m1, none)] = Except.ok r21 ∧
        ∀ k, lookupKV r12 k = unionLookup m1 m2 k ∧
          lookupKV r21 k = unionLookup m1 m2 k) := by
  constructor
  · intro completed
    simp only [collectSocialMetrics]
    split_ifs with h
    · exact iff_of_true rfl ((foldl_mergeStep_eq_nil_iff completed []).mp h).2
    · refine iff_of_false (by simp) ?_
      intro hall
      exact h ((foldl_mergeStep_eq_nil_iff completed []).mpr ⟨rfl, hall⟩)
  · intro m1 m2 hnd1 hnd2 hdisj hne
    have h12 : List.foldl mergeStep [] [(m1, none), (m2, none)] =
        mergeMap (mergeMap [] m1) m2 := rfl
    have h21 : List.foldl mergeStep [] [(m2, none), (m1, none)] =
        mergeMap (mergeMap [] m2) m1 := rfl
    have hne12 : mergeMap (mergeMap [] m1) m2 ≠ [] := by
      intro h
      obtain ⟨ha, hb⟩ := (mergeMap_eq_nil_iff m2 _).mp h
      exact hne ⟨((mergeMap_eq_nil_iff m1 _).mp ha).2, hb⟩
    have hne21 : mergeMap (mergeMap [] m2) m1 ≠ [] := by
      intro h
      obtain ⟨ha, hb⟩ := (mergeMap_eq_nil_iff m1 _).mp h
      exact hne ⟨hb, ((mergeMap_eq_nil_iff m2 _).mp ha).2⟩
    refine ⟨mergeMap (mergeMap [] m1) m2, mergeMap (mergeMap [] m2) m1, ?_, ?_, ?_⟩
    · simp only [collectSocialMetrics, h12]
      rw [if_neg hne12]
    · simp only [collectSocialMetrics, h21]
      rw [if_neg hne21]
    · intro k
      by_cases hk1 : k ∈ keysOf m1
      · obtain ⟨v, hv⟩ := mem_of_mem_keys m1 k hk1
        have hk2 : k ∉ keysOf m2 := hdisj k hk1
        have hu : unionLookup m1 m2 k = some v := by
          simp only [unionLookup, lookupKV_of_mem m1 k v hnd1 hv]
        constructor
        · rw [lookup_merge_notmem m2 _ k hk2, lookup_merge_mem m1 [] k v hnd1 hv, hu]
        · rw [lookup_merge_mem m1 _ k v hnd1 hv, hu]
      · by_cases hk2 : k ∈ keysOf m2
        · obtain ⟨v, hv⟩ := mem_of_mem_keys m2 k hk2
          have hu : unionLookup m1 m2 k = some v := by
            simp only [unionLookup, lookupKV_eq_none_of_notmem m1 k hk1,
              lookupKV_of_mem m2 k v hnd2 hv]
          constructor
          · rw [lookup_merge_mem m2 _ k v hnd2 hv, hu]
          · rw [lookup_merge_notmem m1 _ k hk1, lookup_merge_mem m2 [] k v hnd2 hv, hu]
        · have hu : unionLookup m1 m2 k = none := by
            simp only [unionLookup, lookupKV_eq_none_of_notmem m1 k hk1,
              lookupKV_eq_none_of_notmem m2 k hk2]
          constructor
          · rw [lookup_merge_notmem m2 _ k hk2, lookup_merge_notmem m1 _ k hk1, hu]
            rfl
          · rw [lookup_merge_notmem m1 _ k hk1, lookup_merge_notmem m2 _ k hk2, hu]
            rfl

/-- Witness for C5 at the spec's example: disjoint twitter/reddit sources
merge to their union under both completion orders, and an empty completion
list yields the not-found error. -/
theorem C5_witness :
    collectSocialMetrics [] = Except.error socialAllFailedMsg ∧
    (∃ r12 r21 : SocialMap,
      collectSocialMetrics [([("twitter", (1 : ℚ))], none), ([("reddit", 2)], none)] =
        Except.ok r12 ∧
      collectSocialMetrics [([("reddit", (2 : ℚ))], none), ([("twitter", 1)], none)] =
        Except.ok r21 ∧
      lookupKV r12 "twitter" = some 1 ∧ lookupKV r21 "twitter" = some 1 ∧
      lookupKV r12 "reddit" = some 2 ∧ lookupKV r21 "reddit" = some 2) := by
  constructor
  · exact (C5_social_metrics_merge.1 []).mpr (by simp)
  · obtain ⟨r12, r21, h1, h2, h3⟩ :=
      C5_social_metrics_merge.2 [("twitter", (1 : ℚ))] [("reddit", (2 : ℚ))]
        (by simp [keysOf]) (by simp [keysOf]) (by simp [keysOf]) (by simp)
    refine ⟨r12, r21, h1, h2, ?_, ?_, ?_, ?_⟩
    · rw [(h3 "twitter").1]
      simp [unionLookup, lookupKV]
    · rw [(h3 "twitter").2]
      simp [unionLookup, lookupKV]
    · rw [(h3 "reddit").1]
      simp [unionLookup, lookupKV]
    · rw [(h3 "reddit").2]
      simp [unionLookup, lookupKV]
